import Mathlib

/-!
Shallow embedding of the felix-api authentication service
(`services/auth.ts`, plus the Strapi collaborator `services/strapi.ts`).

JavaScript objects are modelled as association lists of `JsVal`s; object
spread and lodash `_.pick` are modelled by `spreadMerge` and `pickKeys`.
The keyv store backing OTP codes and resend-cooldown marks is modelled as a
list of entries that records the TTL each `set` was given.  External
collaborators (identity provider, client registry, messaging provider, ACL
repository, code generator, signature helpers) are pure oracle functions
collected in an `Env` record; each orchestrator method returns its result
together with the store state and a trace of the collaborator calls it made.
JS truthiness (`""`, `0`, `undefined` are falsy) is made explicit through
`strTruthy` / `numTruthy` / `kvTruthy`.
-/

deriving instance DecidableEq for Except

/-- A JavaScript primitive value as it appears in the objects this service
handles (strings, numbers, booleans). -/
inductive JsVal where
  | s (v : String)
  | n (v : Int)
  | b (v : Bool)
deriving DecidableEq, Repr

/-- A JavaScript object: own enumerable keys with their values. -/
abbrev Obj := List (String × JsVal)

/-- Property read `o[k]`: the first binding of `k`, if any. -/
def objGet (o : Obj) (k : String) : Option JsVal :=
  (o.find? (fun p => p.1 == k)).map (·.2)

/-- Read a numeric property. -/
def objGetInt (o : Obj) (k : String) : Option Int :=
  match objGet o k with
  | some (.n v) => some v
  | _ => none

/-- JS `.toString()` on a primitive value. -/
def jsToString : JsVal → String
  | .s v => v
  | .n v => toString v
  | .b v => toString v

/-- Object spread `{...a, ...b}`: keys of `b` override keys of `a`. -/
def spreadMerge (a b : Obj) : Obj :=
  a.filter (fun p => (objGet b p.1).isNone) ++ b

/-- lodash `_.pick(o, ks)`: the sub-object of `o` on the keys of `ks`
that `o` actually has. -/
def pickKeys (o : Obj) (ks : List String) : Obj :=
  ks.filterMap (fun k => (objGet o k).map (fun v => (k, v)))

/-- JS truthiness of an optional string: absent and `""` are falsy. -/
def strTruthy : Option String → Bool
  | none => false
  | some s => s ≠ ""

/-- JS truthiness of an optional number: absent and `0` are falsy. -/
def numTruthy : Option Int → Bool
  | none => false
  | some v => v ≠ 0

/-- JS `a || b` on optional strings (`""` is falsy). -/
def jsStrOr (a b : Option String) : Option String :=
  if strTruthy a then a else b

/-- `ApiError` from `lib/errors.js` (not under `src/`): a message and an HTTP
status.  Modelled from the spec: the spec's error taxonomy maps invariant
violations such as refresh-without-expiration-info to Internal, so the
status a bare `new ApiError(msg)` call defaults to is modelled as 500. -/
structure ApiError where
  message : String
  status : Nat
deriving DecidableEq, Repr

/-- The claims payload of a session token (`JwtPayload`).  Named claims are
optional fields; any further claims ride along in `rest` untouched. -/
structure JwtPayload where
  sub : Option String := none
  email : Option String := none
  role : Option String := none
  iss : Option String := none
  jti : Option String := none
  iat : Option Int := none
  exp : Option Int := none
  rest : Obj := []
deriving DecidableEq, Repr

/-- The inputs `jwt.sign` is invoked with: the (possibly role-resolved)
payload, the effective `expiresIn` option and the configured issuer.  The
random `jwtid` and the RS256 key material do not affect any claim and are
not modelled. -/
structure SignedToken where
  payload : JwtPayload
  expiresIn : String
  issuer : String
deriving DecidableEq, Repr

/-- `Partial<JwtSettings>` as used by role overrides: an optional expiry. -/
structure JwtOverride where
  expire : Option String := none
deriving DecidableEq, Repr

/-- One entry of `config.auth.roleOverrides`. -/
structure RoleOverrideEntry where
  jwt : Option JwtOverride := none
deriving DecidableEq, Repr

/-- A persisted access-control record (`aclRepo.getUserAcl`). -/
structure AclRecord where
  role : String
deriving DecidableEq, Repr

/-- A value stored in the keyv OTP database: either an OTP record
`{clientId}` or a `Date.now()` timestamp (cooldown mark). -/
inductive KeyvVal where
  | clientItem (clientId : Int)
  | stamp (t : Int)
deriving DecidableEq, Repr

/-- A keyv entry together with the TTL (milliseconds) it was stored under. -/
structure KEntry where
  val : KeyvVal
  ttlMs : Nat
deriving DecidableEq, Repr

/-- The keyv OTP database state. -/
abbrev Db := List (String × KEntry)

/-- `db.get(k)`. -/
def dbGet (db : Db) (k : String) : Option KEntry :=
  (db.find? (fun p => p.1 == k)).map (·.2)

/-- `db.set(k, v, ttl)`: replaces any previous binding of `k`. -/
def dbSet (db : Db) (k : String) (v : KeyvVal) (ttl : Nat) : Db :=
  (k, ⟨v, ttl⟩) :: db.filter (fun p => p.1 ≠ k)

/-- `db.delete(k)`. -/
def dbDelete (db : Db) (k : String) : Db :=
  db.filter (fun p => p.1 ≠ k)

/-- JS truthiness of a fetched keyv value: a missing key is falsy, an OTP
record object is always truthy, a numeric timestamp is truthy unless 0. -/
def kvTruthy : Option KEntry → Bool
  | none => false
  | some ⟨.clientItem _, _⟩ => true
  | some ⟨.stamp t, _⟩ => t ≠ 0

/-- `code.clientId` on a fetched keyv value.  On a timestamp value the JS
source would read `undefined`; that key shape is never consumed as a code,
modelled as 0. -/
def kvClientId : KeyvVal → Int
  | .clientItem c => c
  | .stamp _ => 0

/-- `UserRole.User` from `constants.js` (not under `src/`).  Modelled from
the spec: the system default role; only its identity matters here. -/
def userRoleUser : String := "user"

/-- `UserRole.Agent` from `constants.js` (not under `src/`).  Modelled from
the spec: the elevated role attached by embed login. -/
def userRoleAgent : String := "agent"

/-- A delivered-message record as returned by
`messages.get({token})` (`clientId`, `agentId`, `delivery.sentDateTime`
already converted to epoch milliseconds). -/
structure MessageRec where
  clientId : Int
  agentId : Int
  sentDateTimeMs : Int
deriving DecidableEq, Repr

/-- The decoded embed context (`BossEmbedContext`): the embedded user's
email and the person id. -/
structure BossCtx where
  userEmail : String
  personId : Int
deriving DecidableEq, Repr

/-- A Strapi auth response: the minted token, the numeric user id, and the
user object used for profile merging. -/
structure StrapiAuth where
  jwt : String
  userId : Int
  userObj : Obj
deriving DecidableEq, Repr

/-- Arguments of `strapiService.register` as called by signup. -/
structure RegisterParams where
  username : String
  email : String
  password : String
  firstName : String
  lastName : String
deriving DecidableEq, Repr

/-- Filter criteria passed to `clients.filter` (only the fields the
orchestrator ever sends). -/
structure FilterParams where
  email : Option String := none
  externalId : Option String := none
deriving DecidableEq, Repr

/-- The error object thrown by `clients.create`; the orchestrator inspects
`status` and `statusCode`. -/
structure ErrObj where
  status : Option Nat := none
  statusCode : Option Nat := none
deriving DecidableEq, Repr

/-- Arguments of `clients.create` as called by signup. -/
structure CreateParams where
  agentId : Int
  fname : String
  lname : String
  email : String
  externalId : Int
  prefEmail : Bool
  prefSms : Bool
  prefUnsubscribe : Bool
  status : Bool
deriving DecidableEq, Repr

/-- Arguments of `clients.update` as called by signup's conflict fallback. -/
structure UpdateParams where
  clientId : Int
  agentId : Int
  fname : String
  lname : String
  externalId : Int
  prefEmail : Bool
  prefSms : Bool
  prefUnsubscribe : Bool
  status : Bool
deriving DecidableEq, Repr

/-- Signup either surfaces an `ApiError` it constructed (or that Strapi
registration mapped) or rethrows the registry error object verbatim. -/
inductive SignupErr where
  | api (e : ApiError)
  | registry (e : ErrObj)
deriving DecidableEq, Repr

/-- Configuration and collaborator oracles of `AuthService`.  Collaborators
are pure functions: one call site per request, so a function of the
arguments models the awaited response. -/
structure Env where
  disable_persistence : Bool
  jwtExpire : String
  jwtIssuer : String
  roleOverrides : Option (List (String × RoleOverrideEntry))
  otpTtlMs : Nat
  otpResendTtlMs : Nat
  defaultAgentId : Int
  emailtokenEnabled : Bool
  emailtokenAutoOtp : Bool
  emailtokenExpireMs : Int
  bossSystemKey : String
  agentsSignatureSalt : String
  nowMs : Int
  aclGetUserAcl : Option String → Option AclRecord
  clientsGet : Int → Obj
  clientsFilter : FilterParams → List Obj
  clientsCreate : CreateParams → Except ErrObj Obj
  strapiLogin : String → String → Except ApiError StrapiAuth
  strapiRegister : RegisterParams → Except ApiError StrapiAuth
  messagesGetByToken : String → List MessageRec
  nextCode : String
  bossVerify : String → String → String → Bool
  bossDecode : String → BossCtx
  calcSig : String → String → String

/-- The allow-list `userProfilKeys` restricting merged profiles. -/
def userProfilKeys : List String :=
  ["id", "clientId", "username", "firstName", "lastName", "email",
   "confirmed", "blocked", "createdAt", "updatedAt"]

/-- `getRoleOverride`: if the overrides map is configured and contains the
role, its optional `jwt` settings, else nothing. -/
def getRoleOverride (env : Env) (role : String) : Option JwtOverride :=
  match env.roleOverrides with
  | some m =>
    match m.find? (fun p => p.1 == role) with
    | some p => p.2.jwt
    | none => none
  | none => none

/-- The effective role computed inside `generateToken` when persistence is
enabled: `acl?.role || payload["role"] || UserRole.User`. -/
def effRole (env : Env) (payload : JwtPayload) : String :=
  (jsStrOr ((env.aclGetUserAcl payload.email).map (·.role))
    (jsStrOr payload.role (some userRoleUser))).getD ""

/-- `generateToken(payload, expiresIn?)`: resolves the role and its expiry
override unless persistence is disabled, signs with
`expiresIn || defaultExpire` and the configured issuer.  Returns the sign
inputs and the list of ACL lookups performed. -/
def generateToken (env : Env) (payload : JwtPayload) (expiresIn : Option String) :
    SignedToken × List (Option String) :=
  if env.disable_persistence then
    ({ payload := payload
       expiresIn := (jsStrOr expiresIn (some env.jwtExpire)).getD ""
       issuer := env.jwtIssuer }, [])
  else
    let role := effRole env payload
    let payload := { payload with role := some role }
    let roleOverride := getRoleOverride env role
    let defaultExpire :=
      match roleOverride with
      | some o => (jsStrOr o.expire (some env.jwtExpire)).getD ""
      | none => env.jwtExpire
    ({ payload := payload
       expiresIn := (jsStrOr expiresIn (some defaultExpire)).getD ""
       issuer := env.jwtIssuer }, [payload.email])

/-- The error message thrown by `useOtp` on an absent code. -/
def otpExpiredMsg : String :=
  "The OTP link you follow has already been used or expired. Go to Sign in to request a new link."

/-- The JWT payload built for a registry client in `useOtp` and
`useRepliersToken`: `{email: user.email, sub: user.clientId.toString()}`. -/
def clientTokenPayload (user : Obj) : JwtPayload :=
  { email := (objGet user "email").map jsToString
    sub := (objGet user "clientId").map jsToString }

/-- Result of `useOtp`: outcome, resulting store, tokens signed. -/
structure AuthRes where
  token : SignedToken
  profile : Obj
deriving DecidableEq, Repr

/-- Outcome bundle of `useOtp`. -/
structure UseOtpRes where
  result : Except ApiError AuthRes
  db : Db
  signed : List SignedToken
deriving DecidableEq, Repr

/-- `useOtp(params)`: look the code up; absent → 403; present → fetch the
client, mint a token, build the allow-listed profile, delete the code. -/
def useOtp (env : Env) (db : Db) (code : String) : UseOtpRes :=
  let entry := dbGet db code
  if !kvTruthy entry then
    { result := .error ⟨otpExpiredMsg, 403⟩, db := db, signed := [] }
  else
    let cid := kvClientId (((entry.map (·.val))).getD (.stamp 0))
    let user := env.clientsGet cid
    let (token, _) := generateToken env (clientTokenPayload user) none
    let profile := pickKeys user userProfilKeys
    { result := .ok ⟨token, profile⟩, db := dbDelete db code, signed := [token] }

/-- The cooldown key `otp_sent_<clientId>`. -/
def otpSentKey (clientId : Int) : String :=
  "otp_sent_" ++ toString clientId

/-- The error message thrown while the resend cooldown is live. -/
def rateLimitMsg : String :=
  "You have already requested a new OTP. Please wait before requesting another one."

/-- Outcome bundle of `sendOtp`: outcome, resulting store, number of
codegen calls, messages sent as `(agentId, clientId)` pairs. -/
structure SendOtpRes where
  result : Except ApiError String
  db : Db
  codegenCalls : Nat
  sent : List (Int × Int)
deriving DecidableEq, Repr

/-- `sendOtp(clientId, agentId)`: fail 403 while the cooldown mark is
truthy; otherwise generate a code, store `{code → clientId}` under the code
TTL, store the cooldown mark under the resend TTL, send the message.  The
message body built by `formatOtpMessageContent` does not affect any claim;
the send event records the addressing. -/
def sendOtp (env : Env) (db : Db) (clientId agentId : Int) : SendOtpRes :=
  if kvTruthy (dbGet db (otpSentKey clientId)) then
    { result := .error ⟨rateLimitMsg, 403⟩, db := db, codegenCalls := 0, sent := [] }
  else
    let code := env.nextCode
    let db := dbSet db code (.clientItem clientId) env.otpTtlMs
    let db := dbSet db (otpSentKey clientId) (.stamp env.nowMs) env.otpResendTtlMs
    { result := .ok code, db := db, codegenCalls := 1, sent := [(agentId, clientId)] }

/-- Outcome bundle of `refresh`: outcome, tokens signed, blocklist inserts
`(jti, exp)`, ACL lookups performed by the inner issuance. -/
structure RefreshRes where
  result : Except ApiError SignedToken
  signed : List SignedToken
  blocklistInserts : List (String × Int)
  aclLookups : List (Option String)
deriving DecidableEq, Repr

/-- The error message thrown by `refresh` without expiration info. -/
def refreshErrMsg : String :=
  "Token doesn't include expiration info, cant refresh token"

/-- `refresh(payload)`: reject falsy `iat`/`exp`; otherwise re-sign the
payload minus `{iat, exp, iss, jti}` with explicit expiry `(exp − iat)s`
and insert the old `(jti, exp)` into the blocklist when `jti` is truthy. -/
def refresh (env : Env) (payload : JwtPayload) : RefreshRes :=
  if !numTruthy payload.iat || !numTruthy payload.exp then
    { result := .error ⟨refreshErrMsg, 500⟩
      signed := [], blocklistInserts := [], aclLookups := [] }
  else
    let iat := payload.iat.getD 0
    let exp := payload.exp.getD 0
    let jti := payload.jti
    let newPayload := { payload with iat := none, exp := none, iss := none, jti := none }
    let expiresIn := toString (exp - iat) ++ "s"
    let r := generateToken env newPayload (some expiresIn)
    { result := .ok r.1
      signed := [r.1]
      blocklistInserts := if strTruthy jti then [(jti.getD "", exp)] else []
      aclLookups := r.2 }

/-- Outcome bundle of `useRepliersToken`. -/
structure UseTokenRes where
  result : Except ApiError AuthRes
  db : Db
  codegenCalls : Nat
  sent : List (Int × Int)
  signed : List SignedToken
deriving DecidableEq, Repr

/-- The 412 retry message of the auto-resend branch. -/
def expiredRetryMsg : String :=
  "Email token has expired. Please check your email/text for a new authentication link"

/-- `useRepliersToken(params)`: feature flag off → 400; no message → 403;
message older than the window → auto-resend (412 after one `sendOtp`, whose
own failure propagates) or plain 403; otherwise mint a token and profile
for the message's client. -/
def useRepliersToken (env : Env) (db : Db) (token : String) : UseTokenRes :=
  if !env.emailtokenEnabled then
    { result := .error ⟨"Endpoint is not activated", 400⟩
      db := db, codegenCalls := 0, sent := [], signed := [] }
  else
    match env.messagesGetByToken token with
    | [] =>
      { result := .error ⟨"Email token is invalid", 403⟩
        db := db, codegenCalls := 0, sent := [], signed := [] }
    | message :: _ =>
      if env.nowMs - message.sentDateTimeMs > env.emailtokenExpireMs then
        if env.emailtokenAutoOtp then
          let s := sendOtp env db message.clientId message.agentId
          match s.result with
          | .error e =>
            { result := .error e, db := s.db, codegenCalls := s.codegenCalls
              sent := s.sent, signed := [] }
          | .ok _ =>
            { result := .error ⟨expiredRetryMsg, 412⟩, db := s.db
              codegenCalls := s.codegenCalls, sent := s.sent, signed := [] }
        else
          { result := .error ⟨"Email token has expired", 403⟩
            db := db, codegenCalls := 0, sent := [], signed := [] }
      else
        let user := env.clientsGet message.clientId
        let (tok, _) := generateToken env (clientTokenPayload user) none
        let profile := pickKeys user userProfilKeys
        { result := .ok ⟨tok, profile⟩, db := db, codegenCalls := 0
          sent := [], signed := [tok] }

/-- Outcome bundle of `embedLogin`: the `{jwt, clientSignature}` result and
the tokens signed.  No registry call occurs in this method and no profile
field exists in its result. -/
structure EmbedRes where
  result : Except ApiError (SignedToken × String)
  signed : List SignedToken
deriving DecidableEq, Repr

/-- `embedLogin({context, signature})`: verify first (the context is not
decoded on the mismatch path); on success decode, mint a token with the
embedded email and the agent role, and derive the partner signature over
the person id. -/
def embedLogin (env : Env) (context signature : String) : EmbedRes :=
  if !env.bossVerify context signature env.bossSystemKey then
    { result := .error ⟨"Invalid signature", 401⟩, signed := [] }
  else
    let decoded := env.bossDecode context
    let r := generateToken env
      { email := some decoded.userEmail, role := some userRoleAgent } none
    let clientSignature := env.calcSig (toString decoded.personId) env.agentsSignatureSalt
    { result := .ok (r.1, clientSignature), signed := [r.1] }

/-- The object `login` returns: `token` may be `undefined`, `user` may be
`null` (both modelled as `none`). -/
structure LoginOut where
  token : Option String
  user : Option Obj
deriving DecidableEq, Repr

/-- Outcome bundle of `login`: outcome plus traces of Strapi logins,
registry filter calls, codegen calls and OTP sends (the latter two are
always empty: the OTP fallback path is commented out in the source). -/
structure LoginRes where
  result : Except ApiError LoginOut
  strapiLogins : List (String × String)
  registryFilters : List FilterParams
  codegenCalls : Nat
  sent : List (Int × Int)
deriving DecidableEq, Repr

/-- `loginWithStrapi(email, password)`: delegate to Strapi, look the client
up by external id, merge profiles with Strapi fields winning, pick the
allow-list.  `result.clients[0]` may be absent; its spread then contributes
nothing. -/
def loginWithStrapi (env : Env) (email password : String) :
    Except ApiError (String × Obj) × List (String × String) × List FilterParams :=
  match env.strapiLogin email password with
  | .error e => (.error e, [(email, password)], [])
  | .ok auth =>
    let filterP : FilterParams := { externalId := some (toString auth.userId) }
    let clientsArr := env.clientsFilter filterP
    let c := clientsArr.headD []
    let profile := pickKeys (spreadMerge c auth.userObj) userProfilKeys
    (.ok (auth.jwt, profile), [(email, password)], [filterP])

/-- `login(params)`: with a truthy password and identifier delegate to
Strapi; otherwise return `{token: undefined, user: null}` (the OTP
fallback is commented out in the source). -/
def login (env : Env) (identifier : String) (password : Option String) : LoginRes :=
  if strTruthy password && identifier != "" then
    match loginWithStrapi env identifier (password.getD "") with
    | (.error e, sl, fl) =>
      { result := .error e, strapiLogins := sl, registryFilters := fl
        codegenCalls := 0, sent := [] }
    | (.ok (tok, profile), sl, fl) =>
      { result := .ok ⟨some tok, some profile⟩, strapiLogins := sl
        registryFilters := fl, codegenCalls := 0, sent := [] }
  else
    { result := .ok ⟨none, none⟩, strapiLogins := [], registryFilters := []
      codegenCalls := 0, sent := [] }

/-- The signup request body. -/
structure SignupDto where
  username : String
  email : String
  firstName : String
  lastName : String
  password : String
deriving DecidableEq, Repr

/-- Outcome bundle of `signup`: outcome (token and merged profile) plus
traces of registry create/filter/update/get calls. -/
structure SignupRes where
  result : Except SignupErr (String × Obj)
  creates : List CreateParams
  filters : List FilterParams
  updates : List UpdateParams
  gets : List Int
deriving DecidableEq, Repr

/-- The `strapiService.register` arguments signup builds. -/
def signupRegisterParams (params : SignupDto) : RegisterParams :=
  { username := params.username, email := params.email
    password := params.password, firstName := params.firstName
    lastName := params.lastName }

/-- The `clients.create` arguments signup builds. -/
def signupCreateParams (env : Env) (params : SignupDto) (auth : StrapiAuth) :
    CreateParams :=
  { agentId := env.defaultAgentId, fname := params.firstName
    lname := params.lastName, email := params.email
    externalId := auth.userId, prefEmail := true, prefSms := true
    prefUnsubscribe := false, status := true }

/-- `signup(params)`: register with Strapi (its error rethrown verbatim);
create the registry record; on a 409 conflict fall back to
filter-by-email / update / re-fetch (a conflict with no matching record is
a 500); any other registry error is rethrown verbatim; finally merge the
profile with Strapi fields winning.  The `if (!userInfo)` guard of the
source is unreachable here: both branches bind an object, and objects are
truthy. -/
def signup (env : Env) (params : SignupDto) : SignupRes :=
  match env.strapiRegister (signupRegisterParams params) with
  | .error e =>
    { result := .error (.api e), creates := [], filters := [], updates := [], gets := [] }
  | .ok strapiAuth =>
    let createP := signupCreateParams env params strapiAuth
    match env.clientsCreate createP with
    | .ok userInfo =>
      let profile := pickKeys (spreadMerge userInfo strapiAuth.userObj) userProfilKeys
      { result := .ok (strapiAuth.jwt, profile), creates := [createP]
        filters := [], updates := [], gets := [] }
    | .error err =>
      if err.status == some 409 || err.statusCode == some 409 then
        let filterP : FilterParams := { email := some params.email }
        match env.clientsFilter filterP with
        | [] =>
          { result := .error (.api ⟨"User conflict but not found", 500⟩)
            creates := [createP], filters := [filterP], updates := [], gets := [] }
        | existing :: _ =>
          let exId := (objGetInt existing "clientId").getD 0
          let updP : UpdateParams :=
            { clientId := exId, agentId := (objGetInt existing "agentId").getD 0
              fname := params.firstName, lname := params.lastName
              externalId := strapiAuth.userId, prefEmail := true, prefSms := true
              prefUnsubscribe := false, status := true }
          let userInfo := env.clientsGet exId
          let profile := pickKeys (spreadMerge userInfo strapiAuth.userObj) userProfilKeys
          { result := .ok (strapiAuth.jwt, profile), creates := [createP]
            filters := [filterP], updates := [updP], gets := [exId] }
      else
        { result := .error (.registry err), creates := [createP]
          filters := [], updates := [], gets := [] }

/-! ## Store and object lemmas -/

/-- Deleting a key removes it from the store. -/
theorem dbGet_dbDelete_self (db : Db) (k : String) :
    dbGet (dbDelete db k) k = none := by
  induction db with
  | nil => rfl
  | cons a t ih =>
    by_cases h : a.1 = k
    · simp [dbDelete, dbGet, List.filter_cons, h]
    · simp [dbDelete, dbGet, List.filter_cons, List.find?_cons, h]

/-- A set key is read back with the value and TTL it was given. -/
theorem dbGet_dbSet_self (db : Db) (k : String) (v : KeyvVal) (t : Nat) :
    dbGet (dbSet db k v t) k = some ⟨v, t⟩ := by
  simp [dbGet, dbSet, List.find?_cons]

/-- Filtering one key out of the store does not affect lookups of another. -/
theorem find?_filter_of_ne (l : Db) (k k' : String) (h : k' ≠ k) :
    (l.filter (fun p => p.1 ≠ k)).find? (fun p => p.1 == k')
      = l.find? (fun p => p.1 == k') := by
  rw [List.find?_filter]
  congr 1
  funext a
  by_cases h1 : a.1 = k'
  · have h2 : ¬ a.1 = k := by rw [h1]; exact h
    simp [h1, h2, h]
  · simp [h1]

/-- Setting one key leaves reads of other keys unchanged. -/
theorem dbGet_dbSet_ne (db : Db) (k k' : String) (v : KeyvVal) (t : Nat)
    (h : k' ≠ k) :
    dbGet (dbSet db k v t) k' = dbGet db k' := by
  have hk : (k == k') = false := by
    rw [beq_eq_false_iff_ne]
    exact fun hh => h hh.symm
  simp only [dbGet, dbSet, List.find?_cons, hk, find?_filter_of_ne db k k' h]

/-- Reading a cons object. -/
theorem objGet_cons (p : String × JsVal) (a : Obj) (k : String) :
    objGet (p :: a) k = if p.1 = k then some p.2 else objGet a k := by
  by_cases h : p.1 = k <;> simp [objGet, List.find?_cons, h]

/-- Spread unfolding on the first object. -/
theorem spreadMerge_cons (p : String × JsVal) (a b : Obj) :
    spreadMerge (p :: a) b
      = if (objGet b p.1).isNone then p :: spreadMerge a b else spreadMerge a b := by
  cases h : (objGet b p.1).isNone <;> simp [spreadMerge, List.filter_cons, h]

/-- Reading a spread object: keys of the second object win. -/
theorem objGet_spreadMerge (a b : Obj) (k : String) :
    objGet (spreadMerge a b) k
      = match objGet b k with
        | some v => some v
        | none => objGet a k := by
  induction a with
  | nil =>
    have h0 : spreadMerge [] b = b := by simp [spreadMerge]
    rw [h0]
    cases hb : objGet b k <;> simp [hb, objGet]
  | cons p a ih =>
    by_cases hpb : objGet b p.1 = none
    · have hn : (objGet b p.1).isNone = true := by simp [hpb]
      rw [spreadMerge_cons, hn, if_pos rfl, objGet_cons]
      by_cases hk : p.1 = k
      · rw [if_pos hk]
        have hbk : objGet b k = none := hk ▸ hpb
        simp [hbk, objGet_cons, hk]
      · rw [if_neg hk, ih, objGet_cons, if_neg hk]
    · have hn : (objGet b p.1).isNone = false := by
        cases hx : objGet b p.1
        · exact absurd hx hpb
        · rfl
      rw [spreadMerge_cons, hn, if_neg Bool.false_ne_true, ih]
      cases hbk : objGet b k with
      | some v => simp [hbk]
      | none =>
        have hk : p.1 ≠ k := by
          intro hh; rw [hh] at hpb; exact hpb hbk
        simp [hbk, objGet_cons, hk]

/-- Pick unfolding on the key list. -/
theorem pickKeys_cons (o : Obj) (k' : String) (ks : List String) :
    pickKeys o (k' :: ks)
      = match objGet o k' with
        | some v => (k', v) :: pickKeys o ks
        | none => pickKeys o ks := by
  cases ho : objGet o k' <;> simp [pickKeys, List.filterMap_cons, ho]

/-- Reading a picked object: allow-listed keys read through, others are
absent. -/
theorem objGet_pickKeys (o : Obj) (ks : List String) (k : String) :
    objGet (pickKeys o ks) k = if k ∈ ks then objGet o k else none := by
  induction ks with
  | nil => simp [pickKeys, objGet]
  | cons k' ks ih =>
    rw [pickKeys_cons]
    by_cases hk : k = k'
    · subst hk
      cases ho : objGet o k with
      | some v => simp [ho, objGet_cons]
      | none => simp [ho, ih]
    · cases ho : objGet o k' with
      | some v =>
        have hne : (k' : String) ≠ k := fun hh => hk hh.symm
        simp [ho, objGet_cons, hne, ih, hk]
      | none => simp [ho, ih, hk]

/-! ## Concrete data for witnesses and counterexamples -/

/-- A concrete environment exercising the service. -/
def envSample : Env :=
  { disable_persistence := false
    jwtExpire := "1h"
    jwtIssuer := "felix"
    roleOverrides := some [("agent", { jwt := some { expire := some "12h" } })]
    otpTtlMs := 300000
    otpResendTtlMs := 60000
    defaultAgentId := 1
    emailtokenEnabled := true
    emailtokenAutoOtp := true
    emailtokenExpireMs := 300000
    bossSystemKey := "system-key"
    agentsSignatureSalt := "salt"
    nowMs := 1000000
    aclGetUserAcl := fun _ => none
    clientsGet := fun cid => [("clientId", .n cid), ("email", .s "c@x.com"),
      ("firstName", .s "Reg"), ("agentId", .n 3)]
    clientsFilter := fun _ => []
    clientsCreate := fun _ => .error {}
    strapiLogin := fun _ _ => .error ⟨"Invalid credentials", 401⟩
    strapiRegister := fun _ => .error ⟨"Registration failed", 400⟩
    messagesGetByToken := fun _ => []
    nextCode := "123456"
    bossVerify := fun _ _ _ => false
    bossDecode := fun _ => ⟨"e@x.com", 5⟩
    calcSig := fun a b => a ++ "|" ++ b }

/-! ## Claim theorems -/

/-- C10: for every login request whose input contains an identifier but no
password, `login` returns `{token: undefined, user: null}` without raising
any error, without contacting the identity provider or registry, and
without sending any OTP. -/
theorem login_no_password_disabled_fallback (env : Env) (identifier : String) :
    (login env identifier none).result = .ok ⟨none, none⟩ ∧
    (login env identifier none).strapiLogins = [] ∧
    (login env identifier none).registryFilters = [] ∧
    (login env identifier none).codegenCalls = 0 ∧
    (login env identifier none).sent = [] := by
  simp [login, strTruthy]

/-- C2: for every claims payload missing `iat` or `exp`, `refresh` fails
with the Internal (500) error and mints no token (no token generation
occurs). -/
theorem refresh_missing_expiration_info (env : Env) (payload : JwtPayload)
    (h : payload.iat = none ∨ payload.exp = none) :
    (refresh env payload).result = .error ⟨refreshErrMsg, 500⟩ ∧
    (refresh env payload).signed = [] ∧
    (refresh env payload).blocklistInserts = [] ∧
    (refresh env payload).aclLookups = [] := by
  rcases h with h | h <;> simp [refresh, numTruthy, h]

/-- Witness for C2: a concrete payload with `exp` but no `iat`. -/
theorem refresh_missing_expiration_info_witness :
    ({ email := some "a@x.com", exp := some 1700000 } : JwtPayload).iat = none ∧
    ((refresh envSample { email := some "a@x.com", exp := some 1700000 }).result
        = .error ⟨refreshErrMsg, 500⟩ ∧
      (refresh envSample { email := some "a@x.com", exp := some 1700000 }).signed = [] ∧
      (refresh envSample { email := some "a@x.com", exp := some 1700000 }).blocklistInserts = [] ∧
      (refresh envSample { email := some "a@x.com", exp := some 1700000 }).aclLookups = []) :=
  ⟨rfl, refresh_missing_expiration_info envSample _ (Or.inl rfl)⟩

/-- C1: a code present in the OTP store is consumed successfully exactly
once — the first `useOtp` succeeds and deletes the record, a second
sequential `useOtp` with the same code fails with the 403
already-used/expired error and signs no token; and on any store not
containing the code, `useOtp` fails the same way and signs no token. -/
theorem useOtp_single_use (env : Env) (db : Db) (code : String) (cid : Int)
    (ttl : Nat) (h : dbGet db code = some ⟨.clientItem cid, ttl⟩) :
    (useOtp env db code).result =
      .ok ⟨(generateToken env (clientTokenPayload (env.clientsGet cid)) none).1,
           pickKeys (env.clientsGet cid) userProfilKeys⟩ ∧
    dbGet (useOtp env db code).db code = none ∧
    (useOtp env (useOtp env db code).db code).result = .error ⟨otpExpiredMsg, 403⟩ ∧
    (useOtp env (useOtp env db code).db code).signed = [] ∧
    (∀ db' : Db, dbGet db' code = none →
      (useOtp env db' code).result = .error ⟨otpExpiredMsg, 403⟩ ∧
      (useOtp env db' code).signed = []) := by
  have habsent : ∀ db' : Db, dbGet db' code = none →
      (useOtp env db' code).result = .error ⟨otpExpiredMsg, 403⟩ ∧
      (useOtp env db' code).signed = [] := by
    intro db' h'
    simp [useOtp, h', kvTruthy]
  have hfirst : useOtp env db code =
      { result := .ok ⟨(generateToken env (clientTokenPayload (env.clientsGet cid)) none).1,
                       pickKeys (env.clientsGet cid) userProfilKeys⟩
        db := dbDelete db code
        signed := [(generateToken env (clientTokenPayload (env.clientsGet cid)) none).1] } := by
    simp [useOtp, h, kvTruthy, kvClientId]
  have hdel : dbGet (dbDelete db code) code = none := dbGet_dbDelete_self db code
  refine ⟨by rw [hfirst], by rw [hfirst]; exact hdel, ?_, ?_, habsent⟩
  · rw [hfirst]
    exact (habsent _ hdel).1
  · rw [hfirst]
    exact (habsent _ hdel).2

/-- Witness for C1: a six-digit code stored for client 7. -/
theorem useOtp_single_use_witness :
    dbGet [("111111", ⟨.clientItem 7, 300000⟩)] "111111"
        = some ⟨.clientItem 7, 300000⟩ ∧
    ((useOtp envSample [("111111", ⟨.clientItem 7, 300000⟩)] "111111").result =
        .ok ⟨(generateToken envSample (clientTokenPayload (envSample.clientsGet 7)) none).1,
             pickKeys (envSample.clientsGet 7) userProfilKeys⟩ ∧
      dbGet (useOtp envSample [("111111", ⟨.clientItem 7, 300000⟩)] "111111").db "111111" = none ∧
      (useOtp envSample (useOtp envSample [("111111", ⟨.clientItem 7, 300000⟩)] "111111").db
          "111111").result = .error ⟨otpExpiredMsg, 403⟩ ∧
      (useOtp envSample (useOtp envSample [("111111", ⟨.clientItem 7, 300000⟩)] "111111").db
          "111111").signed = [] ∧
      (∀ db' : Db, dbGet db' "111111" = none →
        (useOtp envSample db' "111111").result = .error ⟨otpExpiredMsg, 403⟩ ∧
        (useOtp envSample db' "111111").signed = [])) :=
  ⟨rfl, useOtp_single_use envSample _ "111111" 7 300000 rfl⟩

/-- C7: while the cooldown mark `otp_sent_<subjectId>` is live, `sendOtp`
always fails with the 403 rate-limit error without generating, storing or
sending a code — whatever else the store holds; with no live mark it
stores `{code → subjectId}` under the configured code TTL, stores the
cooldown mark under the configured resend TTL, sends one message and
returns the code. -/
theorem sendOtp_cooldown_throttle (env : Env) (db : Db) (cid aid : Int)
    (hk : env.nextCode ≠ otpSentKey cid) :
    (kvTruthy (dbGet db (otpSentKey cid)) = true →
      (sendOtp env db cid aid).result = .error ⟨rateLimitMsg, 403⟩ ∧
      (sendOtp env db cid aid).db = db ∧
      (sendOtp env db cid aid).codegenCalls = 0 ∧
      (sendOtp env db cid aid).sent = []) ∧
    (kvTruthy (dbGet db (otpSentKey cid)) = false →
      (sendOtp env db cid aid).result = .ok env.nextCode ∧
      dbGet (sendOtp env db cid aid).db env.nextCode
        = some ⟨.clientItem cid, env.otpTtlMs⟩ ∧
      dbGet (sendOtp env db cid aid).db (otpSentKey cid)
        = some ⟨.stamp env.nowMs, env.otpResendTtlMs⟩ ∧
      (sendOtp env db cid aid).codegenCalls = 1 ∧
      (sendOtp env db cid aid).sent = [(aid, cid)]) := by
  constructor
  · intro h
    simp [sendOtp, h]
  · intro h
    refine ⟨by simp [sendOtp, h], ?_, ?_, by simp [sendOtp, h], by simp [sendOtp, h]⟩
    · have hdb : (sendOtp env db cid aid).db
          = dbSet (dbSet db env.nextCode (.clientItem cid) env.otpTtlMs)
              (otpSentKey cid) (.stamp env.nowMs) env.otpResendTtlMs := by
        simp [sendOtp, h]
      rw [hdb, dbGet_dbSet_ne _ _ _ _ _ hk, dbGet_dbSet_self]
    · have hdb : (sendOtp env db cid aid).db
          = dbSet (dbSet db env.nextCode (.clientItem cid) env.otpTtlMs)
              (otpSentKey cid) (.stamp env.nowMs) env.otpResendTtlMs := by
        simp [sendOtp, h]
      rw [hdb, dbGet_dbSet_self]

/-- Witness for C7: a live mark for client 7 blocks the send (even with no
code in the store); an empty store lets it through. -/
theorem sendOtp_cooldown_throttle_witness :
    envSample.nextCode ≠ otpSentKey 7 ∧
    (kvTruthy (dbGet [(otpSentKey 7, ⟨.stamp 999000, 60000⟩)] (otpSentKey 7)) = true ∧
      (sendOtp envSample [(otpSentKey 7, ⟨.stamp 999000, 60000⟩)] 7 3).result
        = .error ⟨rateLimitMsg, 403⟩ ∧
      (sendOtp envSample [(otpSentKey 7, ⟨.stamp 999000, 60000⟩)] 7 3).sent = []) ∧
    (kvTruthy (dbGet ([] : Db) (otpSentKey 7)) = false ∧
      (sendOtp envSample ([] : Db) 7 3).result = .ok "123456" ∧
      dbGet (sendOtp envSample ([] : Db) 7 3).db "123456"
        = some ⟨.clientItem 7, 300000⟩ ∧
      dbGet (sendOtp envSample ([] : Db) 7 3).db (otpSentKey 7)
        = some ⟨.stamp 1000000, 60000⟩) := by
  have h1 := (sendOtp_cooldown_throttle envSample
    [(otpSentKey 7, ⟨.stamp 999000, 60000⟩)] 7 3 (by decide)).1 (by decide)
  have h2 := (sendOtp_cooldown_throttle envSample ([] : Db) 7 3 (by decide)).2 rfl
  exact ⟨by decide, ⟨by decide, h1.1, h1.2.2.2⟩, ⟨rfl, h2.1, h2.2.1, h2.2.2.1⟩⟩

/-- The C3 counterexample payload: `iat` is present but zero (JS treats a
zero `iat` as falsy, so refresh rejects it as missing). -/
def zeroIatPayload : JwtPayload :=
  { email := some "a@x.com", iat := some 0, exp := some 100, jti := some "t0" }

/-- C3 counterexample: a payload containing both `iat` and `exp` (with
`iat = 0`) on which `refresh` does not re-sign and does not revoke, but
fails with the Internal error — contradicting the claim's universal
re-sign-and-revoke behaviour for payloads containing `iat` and `exp`. -/
theorem refresh_zero_iat_counterexample :
    zeroIatPayload.iat.isSome = true ∧
    zeroIatPayload.exp.isSome = true ∧
    zeroIatPayload.jti = some "t0" ∧
    (refresh envSample zeroIatPayload).result = .error ⟨refreshErrMsg, 500⟩ ∧
    (refresh envSample zeroIatPayload).signed = [] ∧
    (refresh envSample zeroIatPayload).blocklistInserts = [] := by
  refine ⟨rfl, rfl, rfl, ?_, ?_, ?_⟩ <;> decide

/-- C3 (amended): for every claims payload whose `iat` and `exp` are
present and nonzero, `refresh` re-signs through token issuance a new token
whose input payload is the old claims minus `{iat, exp, iss, jti}` with
explicit expiry `exp − iat` seconds, and inserts the old `(jti, exp)` into
the revocation store exactly when the old claims carried a truthy
(nonempty) `jti` — a defensive no-op otherwise.  (Payloads with a zero
`iat` or `exp` are treated by the code as missing expiration info.) -/
theorem refresh_resigns_and_revokes (env : Env) (payload : JwtPayload)
    (i e : Int) (hi : payload.iat = some i) (he : payload.exp = some e)
    (hi0 : i ≠ 0) (he0 : e ≠ 0) :
    (refresh env payload).result =
      .ok (generateToken env
        { payload with iat := none, exp := none, iss := none, jti := none }
        (some (toString (e - i) ++ "s"))).1 ∧
    (refresh env payload).signed =
      [(generateToken env
        { payload with iat := none, exp := none, iss := none, jti := none }
        (some (toString (e - i) ++ "s"))).1] ∧
    (refresh env payload).blocklistInserts =
      (if strTruthy payload.jti then [(payload.jti.getD "", e)] else []) := by
  simp [refresh, numTruthy, hi, he, hi0, he0]

/-- The C3 witness payload: issued at 10, expiring at 110, with a jti. -/
def refreshWitnessPayload : JwtPayload :=
  { email := some "a@x.com", iat := some 10, exp := some 110,
    iss := some "felix", jti := some "t1" }

/-- Witness for C3 (amended): on `refreshWitnessPayload` the re-signed
token and the revocation of ("t1", 110). -/
theorem refresh_resigns_and_revokes_witness :
    refreshWitnessPayload.iat = some 10 ∧
    ((refresh envSample refreshWitnessPayload).result =
      .ok (generateToken envSample
        { refreshWitnessPayload with iat := none, exp := none, iss := none, jti := none }
        (some (toString ((110 : Int) - 10) ++ "s"))).1 ∧
     (refresh envSample refreshWitnessPayload).signed =
      [(generateToken envSample
        { refreshWitnessPayload with iat := none, exp := none, iss := none, jti := none }
        (some (toString ((110 : Int) - 10) ++ "s"))).1] ∧
     (refresh envSample refreshWitnessPayload).blocklistInserts =
      (if strTruthy refreshWitnessPayload.jti
        then [(refreshWitnessPayload.jti.getD "", (110 : Int))] else [])) :=
  ⟨rfl, refresh_resigns_and_revokes envSample refreshWitnessPayload 10 110 rfl rfl
    (by decide) (by decide)⟩

/-- C5 (amended): with the email-token endpoint enabled, `useRepliersToken`
fails 403 when no message matches the token; when a message is found and
the elapsed time since its send timestamp exceeds the configured window,
then with auto-resend on it attempts one OTP send for the same subject —
failing 412 after exactly one send when no resend-cooldown mark is live
for that subject, but propagating the inner 403 rate-limit error (no 412,
nothing sent) when a live cooldown mark exists; with auto-resend off it
fails plain 403 sending nothing; within the window it mints a token and
allow-listed profile exactly as OTP consume does. -/
theorem useRepliersToken_expiry_policy (env : Env) (db : Db) (tok : String)
    (hen : env.emailtokenEnabled = true) :
    (env.messagesGetByToken tok = [] →
      (useRepliersToken env db tok).result = .error ⟨"Email token is invalid", 403⟩ ∧
      (useRepliersToken env db tok).sent = [] ∧
      (useRepliersToken env db tok).signed = []) ∧
    (∀ m ms, env.messagesGetByToken tok = m :: ms →
      (env.nowMs - m.sentDateTimeMs > env.emailtokenExpireMs →
        (env.emailtokenAutoOtp = true →
          kvTruthy (dbGet db (otpSentKey m.clientId)) = false →
          (useRepliersToken env db tok).result = .error ⟨expiredRetryMsg, 412⟩ ∧
          (useRepliersToken env db tok).sent = [(m.agentId, m.clientId)] ∧
          (useRepliersToken env db tok).codegenCalls = 1 ∧
          (useRepliersToken env db tok).signed = []) ∧
        (env.emailtokenAutoOtp = true →
          kvTruthy (dbGet db (otpSentKey m.clientId)) = true →
          (useRepliersToken env db tok).result = .error ⟨rateLimitMsg, 403⟩ ∧
          (useRepliersToken env db tok).sent = [] ∧
          (useRepliersToken env db tok).codegenCalls = 0 ∧
          (useRepliersToken env db tok).db = db ∧
          (useRepliersToken env db tok).signed = []) ∧
        (env.emailtokenAutoOtp = false →
          (useRepliersToken env db tok).result = .error ⟨"Email token has expired", 403⟩ ∧
          (useRepliersToken env db tok).sent = [] ∧
          (useRepliersToken env db tok).codegenCalls = 0 ∧
          (useRepliersToken env db tok).db = db ∧
          (useRepliersToken env db tok).signed = [])) ∧
      (¬(env.nowMs - m.sentDateTimeMs > env.emailtokenExpireMs) →
        (useRepliersToken env db tok).result =
          .ok ⟨(generateToken env (clientTokenPayload (env.clientsGet m.clientId)) none).1,
               pickKeys (env.clientsGet m.clientId) userProfilKeys⟩ ∧
        (useRepliersToken env db tok).sent = [] ∧
        (useRepliersToken env db tok).db = db)) := by
  constructor
  · intro h
    simp [useRepliersToken, hen, h]
  · intro m ms hm
    refine ⟨fun hexp => ⟨fun hauto hcool => ?_, fun hauto hcool => ?_,
      fun hauto => ?_⟩, fun hin => ?_⟩
    · simp [useRepliersToken, hen, hm, hexp, hauto, sendOtp, hcool]
    · simp [useRepliersToken, hen, hm, hexp, hauto, sendOtp, hcool]
    · simp [useRepliersToken, hen, hm, hexp, hauto]
    · simp [useRepliersToken, hen, hm, hin]

/-- The environment of the C5 witness and counterexample: a message sent
10 minutes before now against a 5-minute window, auto-resend enabled (the
spec's scenario). -/
def envMagicLink : Env :=
  { envSample with
    nowMs := 1000000
    emailtokenExpireMs := 300000
    messagesGetByToken := fun t => if t = "tok-1" then [⟨7, 3, 400000⟩] else [] }

/-- The store of the C5 counterexample: a live resend-cooldown mark for
client 7, the subject of the expired message. -/
def cooldownDb : Db := [(otpSentKey 7, ⟨.stamp 999000, 60000⟩)]

/-- C5 counterexample: endpoint enabled, a message is found, the elapsed
time exceeds the window and auto-resend is enabled — the claim's premises
— yet because a live cooldown mark exists for the subject the call fails
with the 403 rate-limit error and sends nothing, not with 412 after one
send as the claim states. -/
theorem useRepliersToken_cooldown_counterexample :
    envMagicLink.emailtokenEnabled = true ∧
    envMagicLink.emailtokenAutoOtp = true ∧
    envMagicLink.messagesGetByToken "tok-1" = [⟨7, 3, 400000⟩] ∧
    envMagicLink.nowMs - 400000 > envMagicLink.emailtokenExpireMs ∧
    (useRepliersToken envMagicLink cooldownDb "tok-1").result
      = .error ⟨rateLimitMsg, 403⟩ ∧
    (useRepliersToken envMagicLink cooldownDb "tok-1").result
      ≠ .error ⟨expiredRetryMsg, 412⟩ ∧
    (useRepliersToken envMagicLink cooldownDb "tok-1").sent = [] ∧
    (useRepliersToken envMagicLink cooldownDb "tok-1").codegenCalls = 0 := by
  refine ⟨rfl, rfl, rfl, by decide, ?_, ?_, ?_, ?_⟩ <;> decide

/-- Witness for C5 (amended): the spec scenario — expired message,
auto-resend on, no live cooldown → 412 with exactly one OTP send; the
same scenario over a store with a live cooldown mark → the propagated 403
rate-limit error and no send; and an unknown token → 403 with no send. -/
theorem useRepliersToken_expiry_policy_witness :
    envMagicLink.emailtokenEnabled = true ∧
    ((useRepliersToken envMagicLink ([] : Db) "tok-1").result
        = .error ⟨expiredRetryMsg, 412⟩ ∧
      (useRepliersToken envMagicLink ([] : Db) "tok-1").sent = [(3, 7)] ∧
      (useRepliersToken envMagicLink ([] : Db) "tok-1").codegenCalls = 1 ∧
      (useRepliersToken envMagicLink ([] : Db) "tok-1").signed = []) ∧
    ((useRepliersToken envMagicLink cooldownDb "tok-1").result
        = .error ⟨rateLimitMsg, 403⟩ ∧
      (useRepliersToken envMagicLink cooldownDb "tok-1").sent = [] ∧
      (useRepliersToken envMagicLink cooldownDb "tok-1").db = cooldownDb) ∧
    ((useRepliersToken envMagicLink ([] : Db) "tok-2").result
        = .error ⟨"Email token is invalid", 403⟩ ∧
      (useRepliersToken envMagicLink ([] : Db) "tok-2").sent = [] ∧
      (useRepliersToken envMagicLink ([] : Db) "tok-2").signed = []) := by
  have h1 := ((useRepliersToken_expiry_policy envMagicLink ([] : Db) "tok-1" rfl).2
    ⟨7, 3, 400000⟩ [] (by decide)).1 (by decide) |>.1 rfl rfl
  have h3 := ((useRepliersToken_expiry_policy envMagicLink cooldownDb "tok-1" rfl).2
    ⟨7, 3, 400000⟩ [] (by decide)).1 (by decide) |>.2.1 rfl rfl
  have h2 := (useRepliersToken_expiry_policy envMagicLink ([] : Db) "tok-2" rfl).1
    (by decide)
  exact ⟨rfl, ⟨h1.1, h1.2.1, h1.2.2.1, h1.2.2.2⟩,
    ⟨h3.1, h3.2.1, h3.2.2.2.1⟩, h2⟩

/-- C6: `embedLogin` verifies the inbound signature over the context blob
with the system-wide shared key before anything else — on mismatch it
fails 401 and signs no token (for every possible context decoding, since
the context is only decoded on the success branch); on success it issues a
token carrying the Agent role for the embedded identity's email and
returns it with the partner-facing signature derived over the embedded
person's id — and no registry profile is part of the result. -/
theorem embedLogin_signature_gate (env : Env) (context sig : String) :
    (env.bossVerify context sig env.bossSystemKey = false →
      (embedLogin env context sig).result = .error ⟨"Invalid signature", 401⟩ ∧
      (embedLogin env context sig).signed = []) ∧
    (env.bossVerify context sig env.bossSystemKey = true →
      (embedLogin env context sig).result =
        .ok ((generateToken env
                { email := some (env.bossDecode context).userEmail,
                  role := some userRoleAgent } none).1,
             env.calcSig (toString (env.bossDecode context).personId)
               env.agentsSignatureSalt) ∧
      (embedLogin env context sig).signed =
        [(generateToken env
            { email := some (env.bossDecode context).userEmail,
              role := some userRoleAgent } none).1]) := by
  constructor
  · intro h
    simp [embedLogin, h]
  · intro h
    simp [embedLogin, h]

/-- The environment of the C6 witness success branch: the verifier accepts
exactly one (context, signature) pair. -/
def envEmbed : Env :=
  { envSample with
    bossVerify := fun c s k => c = "ctx-ok" && s = "sig-ok" && k = "system-key" }

/-- Witness for C6: a tampered pair is rejected with 401 and no token; the
accepted pair yields the agent-role token and the derived signature. -/
theorem embedLogin_signature_gate_witness :
    ((embedLogin envEmbed "ctx-tampered" "sig-ok").result
        = .error ⟨"Invalid signature", 401⟩ ∧
      (embedLogin envEmbed "ctx-tampered" "sig-ok").signed = []) ∧
    ((embedLogin envEmbed "ctx-ok" "sig-ok").result =
        .ok ((generateToken envEmbed
                { email := some "e@x.com", role := some userRoleAgent } none).1,
             envEmbed.calcSig "5" "salt") ∧
      (embedLogin envEmbed "ctx-ok" "sig-ok").signed =
        [(generateToken envEmbed
            { email := some "e@x.com", role := some userRoleAgent } none).1]) := by
  have h1 := (embedLogin_signature_gate envEmbed "ctx-tampered" "sig-ok").1 (by decide)
  have h2 := (embedLogin_signature_gate envEmbed "ctx-ok" "sig-ok").2 (by decide)
  exact ⟨h1, h2⟩

/-- The environment of the C8 counterexample: persistence disabled while
the ACL store would have an entry for everyone. -/
def envNoPersist : Env :=
  { envSample with
    disable_persistence := true
    aclGetUserAcl := fun _ => some ⟨"agent"⟩ }

/-- C8 counterexample: with persistence disabled and no caller-supplied
role, the signed payload carries no role claim at all — not the system
default role — and the live ACL entry is ignored (no lookup), so the
claim's "the caller-supplied role (or default) is used verbatim" fails at
this input. -/
theorem generateToken_disabled_role_counterexample :
    envNoPersist.disable_persistence = true ∧
    ({ email := some "a@x.com" } : JwtPayload).role = none ∧
    (generateToken envNoPersist { email := some "a@x.com" } none).1.payload.role = none ∧
    (generateToken envNoPersist { email := some "a@x.com" } none).1.payload.role
      ≠ some userRoleUser ∧
    (generateToken envNoPersist { email := some "a@x.com" } none).2 = [] := by
  refine ⟨rfl, rfl, rfl, ?_, rfl⟩
  decide

/-- C8 (amended): with persistence enabled, `generateToken` resolves the
effective role with priority ACL entry > role in claims > system default,
writes it into the signed payload, and uses the role's override expiry
when one is configured (falling back to the system default expiry when
the override is absent or empty); with persistence disabled it performs no
ACL lookup and signs the payload verbatim — the role claim left exactly as
supplied, absent if absent — with the default expiry. -/
theorem generateToken_role_resolution (env : Env) (payload : JwtPayload) :
    (env.disable_persistence = true →
      generateToken env payload none =
        ({ payload := payload, expiresIn := env.jwtExpire, issuer := env.jwtIssuer }, [])) ∧
    (env.disable_persistence = false →
      ((generateToken env payload none).2 = [payload.email] ∧
       (generateToken env payload none).1.payload =
         { payload with role := some (effRole env payload) } ∧
       (∀ a, env.aclGetUserAcl payload.email = some a → a.role ≠ "" →
         effRole env payload = a.role) ∧
       (∀ r, strTruthy ((env.aclGetUserAcl payload.email).map (·.role)) = false →
         payload.role = some r → r ≠ "" → effRole env payload = r) ∧
       (strTruthy ((env.aclGetUserAcl payload.email).map (·.role)) = false →
         strTruthy payload.role = false → effRole env payload = userRoleUser) ∧
       (∀ o ex, getRoleOverride env (effRole env payload) = some o →
         o.expire = some ex → ex ≠ "" →
         (generateToken env payload none).1.expiresIn = ex) ∧
       (getRoleOverride env (effRole env payload) = none →
         (generateToken env payload none).1.expiresIn = env.jwtExpire) ∧
       (∀ o, getRoleOverride env (effRole env payload) = some o →
         strTruthy o.expire = false →
         (generateToken env payload none).1.expiresIn = env.jwtExpire))) := by
  constructor
  · intro h
    simp [generateToken, h, jsStrOr, strTruthy]
  · intro h
    refine ⟨by simp [generateToken, h], by simp [generateToken, h, jsStrOr, strTruthy],
      ?_, ?_, ?_, ?_, ?_, ?_⟩
    · intro a ha hr
      simp [effRole, ha, jsStrOr, strTruthy, hr]
    · intro r hfalsy hr hrne
      have h1 : strTruthy (some r) = true := by simp [strTruthy, hrne]
      simp [effRole, jsStrOr, hfalsy, hr, h1]
    · intro hfalsy hrfalsy
      simp [effRole, jsStrOr, hfalsy, hrfalsy]
    · intro o ex ho hex hexne
      simp [generateToken, h, ho, hex, jsStrOr, strTruthy, hexne]
    · intro ho
      simp [generateToken, h, ho, jsStrOr, strTruthy]
    · intro o ho hofalsy
      have h0 : strTruthy none = false := rfl
      simp [generateToken, h, ho, jsStrOr, hofalsy, h0]

/-- The environment of the C8 witness: persistence enabled, an ACL entry
mapping everyone to role "agent", whose override expiry is configured. -/
def envAcl : Env :=
  { envSample with aclGetUserAcl := fun _ => some ⟨"agent"⟩ }

/-- The payload of the C8 witness: it carries a caller-supplied role that
the ACL entry must shadow. -/
def genWitnessPayload : JwtPayload :=
  { email := some "a@x.com", role := some "user" }

/-- Witness for C8 (amended): the ACL role "agent" wins over the payload
role "user", the override expiry "12h" is used and one ACL lookup runs. -/
theorem generateToken_role_resolution_witness :
    envAcl.disable_persistence = false ∧
    effRole envAcl genWitnessPayload = "agent" ∧
    (generateToken envAcl genWitnessPayload none).1.payload =
      { genWitnessPayload with role := some (effRole envAcl genWitnessPayload) } ∧
    (generateToken envAcl genWitnessPayload none).1.expiresIn = "12h" ∧
    (generateToken envAcl genWitnessPayload none).2 = [genWitnessPayload.email] := by
  have h := (generateToken_role_resolution envAcl genWitnessPayload).2 rfl
  exact ⟨rfl, h.2.2.1 ⟨"agent"⟩ rfl (by decide), h.2.1,
    h.2.2.2.2.2.1 ⟨some "12h"⟩ "12h" (by decide) rfl (by decide), h.1⟩

/-- C9: for every successful signup (registry create succeeding) and every
successful password login, the returned profile is exactly the spread
merge of the registry record and the identity-provider user restricted to
`userProfilKeys`, and on every allow-listed key present in both objects
the identity-provider value wins; keys outside the allow-list never
appear. -/
theorem profile_merge_idp_precedence (env : Env) (params : SignupDto)
    (auth : StrapiAuth) (userInfo : Obj)
    (hreg : env.strapiRegister (signupRegisterParams params) = .ok auth)
    (hcre : env.clientsCreate (signupCreateParams env params auth) = .ok userInfo) :
    ((signup env params).result =
      .ok (auth.jwt, pickKeys (spreadMerge userInfo auth.userObj) userProfilKeys) ∧
     (∀ k v1 v2, k ∈ userProfilKeys → objGet userInfo k = some v1 →
       objGet auth.userObj k = some v2 →
       objGet (pickKeys (spreadMerge userInfo auth.userObj) userProfilKeys) k = some v2) ∧
     (∀ k, k ∉ userProfilKeys →
       objGet (pickKeys (spreadMerge userInfo auth.userObj) userProfilKeys) k = none)) ∧
    (∀ email pw auth2 c cs, pw ≠ "" → email ≠ "" →
      env.strapiLogin email pw = .ok auth2 →
      env.clientsFilter { externalId := some (toString auth2.userId) } = c :: cs →
      (login env email (some pw)).result =
        .ok ⟨some auth2.jwt, some (pickKeys (spreadMerge c auth2.userObj) userProfilKeys)⟩ ∧
      (∀ k v1 v2, k ∈ userProfilKeys → objGet c k = some v1 →
        objGet auth2.userObj k = some v2 →
        objGet (pickKeys (spreadMerge c auth2.userObj) userProfilKeys) k = some v2) ∧
      (∀ k, k ∉ userProfilKeys →
        objGet (pickKeys (spreadMerge c auth2.userObj) userProfilKeys) k = none)) := by
  refine ⟨⟨by simp [signup, hreg, hcre], ?_, ?_⟩, ?_⟩
  · intro k v1 v2 hk h1 h2
    rw [objGet_pickKeys, if_pos hk, objGet_spreadMerge, h2]
  · intro k hk
    rw [objGet_pickKeys, if_neg hk]
  · intro email pw auth2 c cs hpw hem hlogin hfil
    have hpwt : strTruthy (some pw) = true := by simp [strTruthy, hpw]
    have hemt : (email != "") = true := by simp [hem]
    refine ⟨?_, ?_, ?_⟩
    · simp [login, hpwt, hemt, loginWithStrapi, hlogin, hfil]
    · intro k v1 v2 hk h1 h2
      rw [objGet_pickKeys, if_pos hk, objGet_spreadMerge, h2]
    · intro k hk
      rw [objGet_pickKeys, if_neg hk]

/-- The identity-provider response shared by the C9/C4 witnesses: its
user object overlaps the registry record on "email" and "firstName". -/
def strapiAuthSample : StrapiAuth :=
  { jwt := "jwt-1", userId := 42
    userObj := [("id", .n 42), ("username", .s "anna"), ("email", .s "a@x.com"),
      ("firstName", .s "Anna"), ("confirmed", .b true)] }

/-- The registry record shared by the C9/C4 witnesses: it collides with
the Strapi user on "email" and "firstName" and has keys ("fname") outside
the allow-list. -/
def registryUserSample : Obj :=
  [("clientId", .n 7), ("agentId", .n 3), ("email", .s "old@x.com"),
    ("firstName", .s "Old"), ("fname", .s "Old")]

/-- The signup request of the C9/C4 witnesses. -/
def signupDtoSample : SignupDto :=
  { username := "anna", email := "a@x.com", firstName := "Anna"
    lastName := "Smith", password := "secret1" }

/-- The environment of the C9 witness: registration and creation succeed;
password login succeeds and the registry filter finds the record. -/
def envSignupOk : Env :=
  { envSample with
    strapiRegister := fun _ => .ok strapiAuthSample
    clientsCreate := fun _ => .ok registryUserSample
    strapiLogin := fun _ _ => .ok strapiAuthSample
    clientsFilter := fun _ => [registryUserSample] }

/-- Witness for C9: on the colliding key "email" the Strapi value wins in
both the signup profile and the login profile; "fname" is dropped. -/
theorem profile_merge_idp_precedence_witness :
    ((signup envSignupOk signupDtoSample).result =
      .ok (strapiAuthSample.jwt,
        pickKeys (spreadMerge registryUserSample strapiAuthSample.userObj) userProfilKeys) ∧
     objGet (pickKeys (spreadMerge registryUserSample strapiAuthSample.userObj)
       userProfilKeys) "email" = some (.s "a@x.com") ∧
     objGet (pickKeys (spreadMerge registryUserSample strapiAuthSample.userObj)
       userProfilKeys) "fname" = none) ∧
    ((login envSignupOk "a@x.com" (some "secret1")).result =
      .ok ⟨some strapiAuthSample.jwt,
        some (pickKeys (spreadMerge registryUserSample strapiAuthSample.userObj)
          userProfilKeys)⟩ ∧
     objGet (pickKeys (spreadMerge registryUserSample strapiAuthSample.userObj)
       userProfilKeys) "firstName" = some (.s "Anna")) := by
  have h := profile_merge_idp_precedence envSignupOk signupDtoSample
    strapiAuthSample registryUserSample rfl rfl
  have hlog := h.2 "a@x.com" "secret1" strapiAuthSample registryUserSample []
    (by decide) (by decide) rfl rfl
  refine ⟨⟨h.1.1, ?_, ?_⟩, hlog.1, ?_⟩
  · exact h.1.2.1 "email" (.s "old@x.com") (.s "a@x.com") (by decide) (by decide)
      (by decide)
  · exact h.1.2.2 "fname" (by decide)
  · exact hlog.2.1 "firstName" (.s "Old") (.s "Anna") (by decide) (by decide)
      (by decide)

/-- C4: when identity-provider registration succeeds and the registry
create fails with a 409 conflict, signup looks the existing record up by
email, updates it with the new attributes, re-fetches it by its client id
and returns the merged profile with the token — the conflict never
surfaces to the caller. -/
theorem signup_conflict_absorbed (env : Env) (params : SignupDto)
    (auth : StrapiAuth) (err : ErrObj) (existing : Obj) (rest : List Obj)
    (hreg : env.strapiRegister (signupRegisterParams params) = .ok auth)
    (hcre : env.clientsCreate (signupCreateParams env params auth) = .error err)
    (h409 : err.status = some 409 ∨ err.statusCode = some 409)
    (hfil : env.clientsFilter { email := some params.email } = existing :: rest) :
    (signup env params).result =
      .ok (auth.jwt,
        pickKeys (spreadMerge (env.clientsGet ((objGetInt existing "clientId").getD 0))
          auth.userObj) userProfilKeys) ∧
    (signup env params).updates =
      [⟨(objGetInt existing "clientId").getD 0, (objGetInt existing "agentId").getD 0,
        params.firstName, params.lastName, auth.userId, true, true, false, true⟩] ∧
    (signup env params).filters = [{ email := some params.email }] ∧
    (signup env params).gets = [(objGetInt existing "clientId").getD 0] := by
  have hc : (err.status == some 409 || err.statusCode == some 409) = true := by
    rcases h409 with h | h <;> simp [h]
  refine ⟨?_, ?_, ?_, ?_⟩ <;> simp [signup, hreg, hcre, hc, hfil]

/-- The environment of the C4 witness: registration succeeds, creation
conflicts with status 409, the email lookup finds the existing record. -/
def envConflict : Env :=
  { envSample with
    strapiRegister := fun _ => .ok strapiAuthSample
    clientsCreate := fun _ => .error { status := some 409 }
    clientsFilter := fun _ => [registryUserSample] }

/-- Witness for C4: the concrete conflicting signup is absorbed — it
returns the updated profile and token, after one update of client 7 with
the new attributes and one re-fetch. -/
theorem signup_conflict_absorbed_witness :
    (signup envConflict signupDtoSample).result =
      .ok (strapiAuthSample.jwt,
        pickKeys (spreadMerge (envConflict.clientsGet 7) strapiAuthSample.userObj)
          userProfilKeys) ∧
    (signup envConflict signupDtoSample).updates =
      [⟨7, 3, "Anna", "Smith", 42, true, true, false, true⟩] ∧
    (signup envConflict signupDtoSample).filters = [{ email := some "a@x.com" }] ∧
    (signup envConflict signupDtoSample).gets = [7] :=
  signup_conflict_absorbed envConflict signupDtoSample strapiAuthSample
    { status := some 409 } registryUserSample [] rfl rfl (Or.inl rfl) rfl
